import Mathlib

/-!
Shallow embedding of the FxA authentication state machine from
`components/fxa-client/src/state_machine/` ( `types.rs`, `logic.rs`, `mod.rs` ):
the public and internal state/event data model, the pure transition logic, and
the driver `process_event` loop, followed by theorems about them.
-/

/-- Modelled from the spec: the auth classification returned by the account's
`GetAuthState` operation (spec section 6: `{Disconnected | AuthIssues | Connected}`).
The enum itself is defined outside the state-machine sources (`crate::FxaRustAuthState`). -/
inductive FxaRustAuthState where
  | Disconnected
  | AuthIssues
  | Connected
  deriving DecidableEq

/-- `FxaState` (types.rs lines 13-25): the public states. -/
inductive FxaState where
  | Uninitialized
  | Disconnected
  | Authenticating (oauth_url : String)
  | Connected
  | AuthIssues
  deriving DecidableEq

/-- `FxaEvent` (types.rs lines 31-74): the events consumers send to `process_event`. -/
inductive FxaEvent where
  | Initialize
  | BeginOAuthFlow (scopes : List String) (entrypoint : String)
  | BeginPairingFlow (pairing_url : String) (scopes : List String) (entrypoint : String)
  | CompleteOAuthFlow (code : String) (state : String)
  | CancelOAuthFlow
  | CheckAuthorizationStatus
  | Disconnect
  deriving DecidableEq

/-- `UninitializedState` (types.rs lines 94-98). -/
inductive UninitializedState where
  | GetAuthState
  | EnsureDeviceCapabilities
  | CheckAuthorizationStatus
  deriving DecidableEq

/-- `DisconnectedState` (types.rs lines 101-111). -/
inductive DisconnectedState where
  | BeginOAuthFlow (scopes : List String) (entrypoint : String)
  | BeginPairingFlow (pairing_url : String) (scopes : List String) (entrypoint : String)
  deriving DecidableEq

/-- `AuthenticatingState` (types.rs lines 114-117). -/
inductive AuthenticatingState where
  | CompleteOAuthFlow (code : String) (state : String)
  | InitializeDevice
  deriving DecidableEq

/-- `ConnectedState` (types.rs lines 120-123). -/
inductive ConnectedState where
  | CheckAuthorizationStatus
  | Disconnect
  deriving DecidableEq

/-- `AuthIssuesState` (types.rs lines 126-131). -/
inductive AuthIssuesState where
  | BeginOAuthFlow (scopes : List String) (entrypoint : String)
  deriving DecidableEq

/-- `InternalState` (types.rs lines 85-91): one variant per public state, each
holding that public state's sub-states. -/
inductive InternalState where
  | Uninitialized (inner : UninitializedState)
  | Disconnected (inner : DisconnectedState)
  | Authenticating (inner : AuthenticatingState)
  | Connected (inner : ConnectedState)
  | AuthIssues (inner : AuthIssuesState)
  deriving DecidableEq

/-- `CallErrorKind` (types.rs lines 150-153). -/
inductive CallErrorKind where
  | Auth
  | Other
  deriving DecidableEq

/-- `InternalEvent` (types.rs lines 137-147): the result of the method call for
each internal state. -/
inductive InternalEvent where
  | GetAuthStateSuccess (auth_state : FxaRustAuthState)
  | BeginOAuthFlowSuccess (oauth_url : String)
  | BeginPairingFlowSuccess (oauth_url : String)
  | CompleteOAuthFlowSuccess
  | InitializeDeviceSuccess
  | EnsureDeviceCapabilitiesSuccess
  | CheckAuthorizationStatusSuccess (active : Bool)
  | DisconnectSuccess
  | CallError (kind : CallErrorKind)
  deriving DecidableEq

/-- `InternalStateTransition` (logic.rs lines 33-40). -/
inductive InternalStateTransition (T : Type) where
  | Process (state : T)
  | Complete (fxa_state : FxaState)
  | Cancel
  deriving DecidableEq

/-- `InternalStateTransition::convert` (logic.rs lines 45-55); the `Into`
conversion of the sub-state into `InternalState` is passed explicitly as `f`
(the `From` impls of types.rs lines 267-295 are the constructors). -/
def InternalStateTransition.convert {T : Type} :
    InternalStateTransition T → (T → InternalState) → InternalStateTransition InternalState
  | .Process state, f => .Process (f state)
  | .Complete fxa_state, _ => .Complete fxa_state
  | .Cancel, _ => .Cancel

/-- `invalid_transition` (logic.rs lines 255-261): reports the anomaly through
the error-reporting side channel (outside this pure model) and returns `Cancel`. -/
def invalid_transition {T : Type} : InternalStateTransition T :=
  InternalStateTransition.Cancel

/-- `UninitializedState::start_transition` (logic.rs lines 86-94). -/
def UninitializedState.start_transition (_public_state : FxaState) (event : FxaEvent) :
    InternalStateTransition UninitializedState :=
  match event with
  | .Initialize => .Process .GetAuthState
  | _ => invalid_transition

/-- `UninitializedState::transition` (logic.rs lines 96-125). -/
def UninitializedState.transition (s : UninitializedState) (event : InternalEvent) :
    InternalStateTransition UninitializedState :=
  match s, event with
  | .GetAuthState, .GetAuthStateSuccess auth_state =>
    match auth_state with
    | .Disconnected => .Complete .Disconnected
    | .AuthIssues => .Complete .Connected
    | .Connected => .Process .EnsureDeviceCapabilities
  | .EnsureDeviceCapabilities, .EnsureDeviceCapabilitiesSuccess => .Complete .Connected
  | .EnsureDeviceCapabilities, .CallError kind =>
    match kind with
    | .Auth => .Process .CheckAuthorizationStatus
    | .Other => .Complete .Disconnected
  | .CheckAuthorizationStatus, .CheckAuthorizationStatusSuccess true => .Complete .Connected
  | .CheckAuthorizationStatus, .CheckAuthorizationStatusSuccess false => .Complete .AuthIssues
  | .CheckAuthorizationStatus, .CallError _ => .Complete .AuthIssues
  | _, _ => invalid_transition

/-- `DisconnectedState::start_transition` (logic.rs lines 129-149). -/
def DisconnectedState.start_transition (_public_state : FxaState) (event : FxaEvent) :
    InternalStateTransition DisconnectedState :=
  match event with
  | .BeginOAuthFlow scopes entrypoint => .Process (.BeginOAuthFlow scopes entrypoint)
  | .BeginPairingFlow pairing_url scopes entrypoint =>
    .Process (.BeginPairingFlow pairing_url scopes entrypoint)
  | _ => invalid_transition

/-- `DisconnectedState::transition` (logic.rs lines 151-163). -/
def DisconnectedState.transition (s : DisconnectedState) (event : InternalEvent) :
    InternalStateTransition DisconnectedState :=
  match s, event with
  | .BeginOAuthFlow _ _, .BeginOAuthFlowSuccess oauth_url =>
    .Complete (.Authenticating oauth_url)
  | .BeginPairingFlow _ _ _, .BeginPairingFlowSuccess oauth_url =>
    .Complete (.Authenticating oauth_url)
  | .BeginOAuthFlow _ _, .CallError _ => .Cancel
  | .BeginPairingFlow _ _ _, .CallError _ => .Cancel
  | _, _ => invalid_transition

/-- `AuthenticatingState::start_transition` (logic.rs lines 167-179). -/
def AuthenticatingState.start_transition (_public_state : FxaState) (event : FxaEvent) :
    InternalStateTransition AuthenticatingState :=
  match event with
  | .CompleteOAuthFlow code state => .Process (.CompleteOAuthFlow code state)
  | .CancelOAuthFlow => .Complete .Disconnected
  | _ => invalid_transition

/-- `AuthenticatingState::transition` (logic.rs lines 181-191). -/
def AuthenticatingState.transition (s : AuthenticatingState) (event : InternalEvent) :
    InternalStateTransition AuthenticatingState :=
  match s, event with
  | .CompleteOAuthFlow _ _, .CompleteOAuthFlowSuccess => .Process .InitializeDevice
  | .CompleteOAuthFlow _ _, .CallError _ => .Cancel
  | .InitializeDevice, .InitializeDeviceSuccess => .Complete .Connected
  | .InitializeDevice, .CallError _ => .Cancel
  | _, _ => invalid_transition

/-- `ConnectedState::start_transition` (logic.rs lines 195-204). -/
def ConnectedState.start_transition (_public_state : FxaState) (event : FxaEvent) :
    InternalStateTransition ConnectedState :=
  match event with
  | .Disconnect => .Process .Disconnect
  | .CheckAuthorizationStatus => .Process .CheckAuthorizationStatus
  | _ => invalid_transition

/-- `ConnectedState::transition` (logic.rs lines 206-225).  The `CallError`
after `Disconnect` is reported through the error side channel but still
completes to `Disconnected`. -/
def ConnectedState.transition (s : ConnectedState) (event : InternalEvent) :
    InternalStateTransition ConnectedState :=
  match s, event with
  | .Disconnect, .DisconnectSuccess => .Complete .Disconnected
  | .Disconnect, .CallError _ => .Complete .Disconnected
  | .CheckAuthorizationStatus, .CheckAuthorizationStatusSuccess active =>
    if active then .Complete .Connected else .Complete .Disconnected
  | .CheckAuthorizationStatus, .CallError _ => .Complete .Disconnected
  | _, _ => invalid_transition

/-- `AuthIssuesState::start_transition` (logic.rs lines 229-242). -/
def AuthIssuesState.start_transition (_public_state : FxaState) (event : FxaEvent) :
    InternalStateTransition AuthIssuesState :=
  match event with
  | .BeginOAuthFlow scopes entrypoint => .Process (.BeginOAuthFlow scopes entrypoint)
  | _ => invalid_transition

/-- `AuthIssuesState::transition` (logic.rs lines 244-252). -/
def AuthIssuesState.transition (s : AuthIssuesState) (event : InternalEvent) :
    InternalStateTransition AuthIssuesState :=
  match s, event with
  | .BeginOAuthFlow _ _, .BeginOAuthFlowSuccess oauth_url =>
    .Complete (.Authenticating oauth_url)
  | .BeginOAuthFlow _ _, .CallError _ => .Cancel
  | _, _ => invalid_transition

/-- `InternalStateLogic::start_transition` for `InternalState` (logic.rs lines 59-72):
dispatch on the public state's variant, then inject the sub-machine's result. -/
def InternalState.start_transition (public_state : FxaState) (event : FxaEvent) :
    InternalStateTransition InternalState :=
  match public_state with
  | .Uninitialized =>
    (UninitializedState.start_transition public_state event).convert InternalState.Uninitialized
  | .Disconnected =>
    (DisconnectedState.start_transition public_state event).convert InternalState.Disconnected
  | .Authenticating _ =>
    (AuthenticatingState.start_transition public_state event).convert InternalState.Authenticating
  | .Connected =>
    (ConnectedState.start_transition public_state event).convert InternalState.Connected
  | .AuthIssues =>
    (AuthIssuesState.start_transition public_state event).convert InternalState.AuthIssues

/-- `InternalStateLogic::transition` for `InternalState` (logic.rs lines 74-82). -/
def InternalState.transition (s : InternalState) (event : InternalEvent) :
    InternalStateTransition InternalState :=
  match s with
  | .Uninitialized inner => (inner.transition event).convert InternalState.Uninitialized
  | .Disconnected inner => (inner.transition event).convert InternalState.Disconnected
  | .Authenticating inner => (inner.transition event).convert InternalState.Authenticating
  | .Connected inner => (inner.transition event).convert InternalState.Connected
  | .AuthIssues inner => (inner.transition event).convert InternalState.AuthIssues

/-- `MAX_INTERNAL_TRANSITIONS` (mod.rs line 23). -/
def MAX_INTERNAL_TRANSITIONS : Nat := 20

/-- The errors `process_event` can return (mod.rs lines 78, 89).  The source
variants carry diagnostic `String` messages built from the `Display` impls;
no claim concerns the messages, so the payloads are omitted. -/
inductive Error where
  | InvalidStateTransition
  | StateMachineLogicError
  deriving DecidableEq

/-- Modelled from the spec: the account collaborator (spec section 6) composed with
the error-classification collaborator (spec section 6, `convert_log_report_error` in
mod.rs lines 97-104); neither is under the state-machine sources.  Each fallible
operation returns its success payload or the `CallErrorKind` that classification
assigns its error.  `get_auth_state` and `disconnect` are infallible in the driver
(mod.rs lines 126-128 and 165-168). -/
structure Account where
  get_auth_state : FxaRustAuthState
  ensure_capabilities : Except CallErrorKind Unit
  begin_oauth_flow : Except CallErrorKind String
  begin_pairing_flow : Except CallErrorKind String
  complete_oauth_flow : Except CallErrorKind Unit
  initialize_device : Except CallErrorKind Unit
  check_authorization_status : Except CallErrorKind Bool
  disconnect : Unit

/-- `FxaStateMachine::process_internal_state` (mod.rs lines 116-170): invoke the
account operation that corresponds to the internal state, returning the
`InternalEvent` for its result, or the error (already classified by the
`Account` model).  Note: for `Disconnected(BeginPairingFlow)` the source builds
`BeginOAuthFlowSuccess`, not `BeginPairingFlowSuccess` (mod.rs line 146); the
embedding keeps that literally. -/
def process_internal_state (account : Account) (state : InternalState) :
    Except CallErrorKind InternalEvent :=
  match state with
  | .Uninitialized .GetAuthState => .ok (.GetAuthStateSuccess account.get_auth_state)
  | .Uninitialized .EnsureDeviceCapabilities =>
    match account.ensure_capabilities with
    | .ok _ => .ok .EnsureDeviceCapabilitiesSuccess
    | .error e => .error e
  | .Disconnected (.BeginOAuthFlow _ _) | .AuthIssues (.BeginOAuthFlow _ _) =>
    match account.begin_oauth_flow with
    | .ok oauth_url => .ok (.BeginOAuthFlowSuccess oauth_url)
    | .error e => .error e
  | .Disconnected (.BeginPairingFlow _ _ _) =>
    match account.begin_pairing_flow with
    | .ok oauth_url => .ok (.BeginOAuthFlowSuccess oauth_url)
    | .error e => .error e
  | .Authenticating (.CompleteOAuthFlow _ _) =>
    match account.complete_oauth_flow with
    | .ok _ => .ok .CompleteOAuthFlowSuccess
    | .error e => .error e
  | .Authenticating .InitializeDevice =>
    match account.initialize_device with
    | .ok _ => .ok .InitializeDeviceSuccess
    | .error e => .error e
  | .Connected .CheckAuthorizationStatus | .Uninitialized .CheckAuthorizationStatus =>
    match account.check_authorization_status with
    | .ok active => .ok (.CheckAuthorizationStatusSuccess active)
    | .error e => .error e
  | .Connected .Disconnect => .ok .DisconnectSuccess

/-- One iteration of the body of `process_event`'s loop past the bound check
(mod.rs lines 93-106): invoke the account operation for `internal_state`, fold a
failure into `InternalEvent.CallError` with its classified kind, and ask the
transition logic for the next step. -/
def process_step (account : Account) (internal_state : InternalState) :
    InternalStateTransition InternalState :=
  let internal_event :=
    match process_internal_state account internal_state with
    | .ok internal_event => internal_event
    | .error kind => InternalEvent.CallError kind
  internal_state.transition internal_event

/-- The loop of `process_event` (mod.rs lines 65-107), parameterized by the
per-iteration step function `step` so that loop-bound behavior can be stated for
any transition table; `process_event` instantiates `step` with `process_step`.
`count` is the source's iteration counter. -/
def process_event_loop (step : InternalState → InternalStateTransition InternalState)
    (current_state : FxaState) (t : InternalStateTransition InternalState)
    (count : Nat) : Except Error FxaState :=
  match t with
  | .Complete public_state => .ok public_state
  | .Cancel => if count = 0 then .error .InvalidStateTransition else .ok current_state
  | .Process internal_state =>
    if h : MAX_INTERNAL_TRANSITIONS < count + 1 then .error .StateMachineLogicError
    else process_event_loop step current_state (step internal_state) (count + 1)
termination_by MAX_INTERNAL_TRANSITIONS + 1 - count
decreasing_by
  omega

/-- `FxaStateMachine::process_event` (mod.rs lines 58-108): start the transition
for the stored public state and the submitted event, then run the loop. -/
def process_event (account : Account) (current_state : FxaState) (event : FxaEvent) :
    Except Error FxaState :=
  process_event_loop (process_step account) current_state
    (InternalState.start_transition current_state event) 0

/-- The stored public state after one `process_event` call: the driver writes a
new state only in the `Complete` branch, which is also the only `Ok` whose value
differs from the stored state (mod.rs lines 68-84); on `Cancel` and on errors
the stored state is untouched. -/
def stored_state_after (current_state : FxaState) : Except Error FxaState → FxaState
  | .ok s => s
  | .error _ => current_state

/-- `process_event_loop` instrumented with the number of account-operation
invocations performed (iterations that pass the bound check and reach the
operation call). -/
def process_event_loop_count (step : InternalState → InternalStateTransition InternalState)
    (current_state : FxaState) (t : InternalStateTransition InternalState)
    (count : Nat) : Except Error FxaState × Nat :=
  match t with
  | .Complete public_state => (.ok public_state, 0)
  | .Cancel => (if count = 0 then .error .InvalidStateTransition else .ok current_state, 0)
  | .Process internal_state =>
    if h : MAX_INTERNAL_TRANSITIONS < count + 1 then (.error .StateMachineLogicError, 0)
    else
      let r := process_event_loop_count step current_state (step internal_state) (count + 1)
      (r.1, r.2 + 1)
termination_by MAX_INTERNAL_TRANSITIONS + 1 - count
decreasing_by
  omega

/-- The chain of per-iteration steps starting at internal state `s` performs `n`
further `Process` steps and then yields `Cancel`. -/
def cancel_after (step : InternalState → InternalStateTransition InternalState) :
    InternalState → Nat → Prop
  | s, 0 => step s = .Cancel
  | s, n + 1 => ∃ s2, step s = .Process s2 ∧ cancel_after step s2 n

/-- A concrete account whose operations all succeed. -/
def anyAccount : Account where
  get_auth_state := .Disconnected
  ensure_capabilities := .ok ()
  begin_oauth_flow := .ok "https://example.com/oauth-start"
  begin_pairing_flow := .ok "https://example.com/oauth-start"
  complete_oauth_flow := .ok ()
  initialize_device := .ok ()
  check_authorization_status := .ok true
  disconnect := ()

/-- A concrete account whose pairing flow succeeds (as `anyAccount`, kept
separate so distinct claims evaluate distinct runs). -/
def pairingAccount : Account where
  get_auth_state := .Disconnected
  ensure_capabilities := .ok ()
  begin_oauth_flow := .ok "https://example.com/oauth-start"
  begin_pairing_flow := .ok "https://example.com/oauth-start"
  complete_oauth_flow := .ok ()
  initialize_device := .ok ()
  check_authorization_status := .ok true
  disconnect := ()

/-- A concrete account whose OAuth-flow operations fail with an `Other` error. -/
def failingOAuthAccount : Account where
  get_auth_state := .Disconnected
  ensure_capabilities := .ok ()
  begin_oauth_flow := .error .Other
  begin_pairing_flow := .error .Other
  complete_oauth_flow := .ok ()
  initialize_device := .ok ()
  check_authorization_status := .ok true
  disconnect := ()

theorem start_transition_ne_complete_uninitialized
    (public_state : FxaState) (event : FxaEvent) :
    InternalState.start_transition public_state event ≠ .Complete .Uninitialized := by
  cases public_state <;> cases event <;>
    simp [InternalState.start_transition, UninitializedState.start_transition,
      DisconnectedState.start_transition, AuthenticatingState.start_transition,
      ConnectedState.start_transition, AuthIssuesState.start_transition,
      InternalStateTransition.convert, invalid_transition]

theorem transition_ne_complete_uninitialized (s : InternalState) (e : InternalEvent) :
    InternalState.transition s e ≠ .Complete .Uninitialized := by
  cases s <;> rename_i inner <;> cases inner <;> cases e <;>
    simp only [InternalState.transition, UninitializedState.transition,
      DisconnectedState.transition, AuthenticatingState.transition,
      ConnectedState.transition, AuthIssuesState.transition] <;>
    (try split) <;>
    simp_all [InternalStateTransition.convert, invalid_transition]

theorem process_event_loop_ne_uninitialized
    (step : InternalState → InternalStateTransition InternalState)
    (current_state : FxaState)
    (hstep : ∀ s, step s ≠ .Complete .Uninitialized)
    (hcur : current_state ≠ .Uninitialized) :
    ∀ (n : Nat) (t : InternalStateTransition InternalState) (count : Nat),
      MAX_INTERNAL_TRANSITIONS + 1 - count ≤ n →
      t ≠ .Complete .Uninitialized →
      ∀ result : FxaState,
        process_event_loop step current_state t count = .ok result →
        result ≠ .Uninitialized := by
  intro n
  induction n with
  | zero =>
    intro t count hle ht result hrun
    cases t with
    | Complete p =>
      simp only [process_event_loop] at hrun
      injection hrun with h
      subst h
      intro heq
      subst heq
      exact ht rfl
    | Cancel =>
      simp only [process_event_loop] at hrun
      split at hrun
      · exact absurd hrun (by simp)
      · injection hrun with h
        subst h
        exact hcur
    | Process s =>
      simp only [process_event_loop] at hrun
      rw [dif_pos (by omega)] at hrun
      exact absurd hrun (by simp)
  | succ n ih =>
    intro t count hle ht result hrun
    cases t with
    | Complete p =>
      simp only [process_event_loop] at hrun
      injection hrun with h
      subst h
      intro heq
      subst heq
      exact ht rfl
    | Cancel =>
      simp only [process_event_loop] at hrun
      split at hrun
      · exact absurd hrun (by simp)
      · injection hrun with h
        subst h
        exact hcur
    | Process s =>
      simp only [process_event_loop] at hrun
      by_cases hb : MAX_INTERNAL_TRANSITIONS < count + 1
      · rw [dif_pos hb] at hrun
        exact absurd hrun (by simp)
      · rw [dif_neg hb] at hrun
        exact ih (step s) (count + 1) (by omega) (hstep s) result hrun

theorem process_event_loop_count_fst
    (step : InternalState → InternalStateTransition InternalState)
    (current_state : FxaState) :
    ∀ (n : Nat) (t : InternalStateTransition InternalState) (count : Nat),
      MAX_INTERNAL_TRANSITIONS + 1 - count ≤ n →
      (process_event_loop_count step current_state t count).1
        = process_event_loop step current_state t count := by
  intro n
  induction n with
  | zero =>
    intro t count hle
    cases t with
    | Complete p => simp [process_event_loop_count, process_event_loop]
    | Cancel => simp [process_event_loop_count, process_event_loop]
    | Process s =>
      simp only [process_event_loop_count, process_event_loop]
      rw [dif_pos (by omega), dif_pos (by omega)]
  | succ n ih =>
    intro t count hle
    cases t with
    | Complete p => simp [process_event_loop_count, process_event_loop]
    | Cancel => simp [process_event_loop_count, process_event_loop]
    | Process s =>
      by_cases hb : MAX_INTERNAL_TRANSITIONS < count + 1
      · simp only [process_event_loop_count, process_event_loop]
        rw [dif_pos hb, dif_pos hb]
      · simp only [process_event_loop_count, process_event_loop]
        rw [dif_neg hb, dif_neg hb]
        exact ih (step s) (count + 1) (by omega)

theorem process_event_loop_count_le
    (step : InternalState → InternalStateTransition InternalState)
    (current_state : FxaState) :
    ∀ (n : Nat) (t : InternalStateTransition InternalState) (count : Nat),
      MAX_INTERNAL_TRANSITIONS + 1 - count ≤ n →
      (process_event_loop_count step current_state t count).2
        ≤ MAX_INTERNAL_TRANSITIONS - count := by
  intro n
  induction n with
  | zero =>
    intro t count hle
    cases t with
    | Complete p => simp [process_event_loop_count]
    | Cancel => simp [process_event_loop_count]
    | Process s =>
      simp only [process_event_loop_count]
      rw [dif_pos (by omega)]
      simp
  | succ n ih =>
    intro t count hle
    cases t with
    | Complete p => simp [process_event_loop_count]
    | Cancel => simp [process_event_loop_count]
    | Process s =>
      by_cases hb : MAX_INTERNAL_TRANSITIONS < count + 1
      · simp only [process_event_loop_count]
        rw [dif_pos hb]
        simp
      · simp only [process_event_loop_count]
        rw [dif_neg hb]
        have h := ih (step s) (count + 1) (by omega)
        show (process_event_loop_count step current_state (step s) (count + 1)).2 + 1
          ≤ MAX_INTERNAL_TRANSITIONS - count
        omega

theorem process_event_loop_always_process
    (step : InternalState → InternalStateTransition InternalState)
    (current_state : FxaState)
    (hstep : ∀ s, ∃ s2, step s = .Process s2) :
    ∀ (n : Nat) (s : InternalState) (count : Nat),
      MAX_INTERNAL_TRANSITIONS + 1 - count ≤ n →
      process_event_loop step current_state (.Process s) count
        = .error .StateMachineLogicError := by
  intro n
  induction n with
  | zero =>
    intro s count hle
    simp only [process_event_loop]
    rw [dif_pos (by omega)]
  | succ n ih =>
    intro s count hle
    by_cases hb : MAX_INTERNAL_TRANSITIONS < count + 1
    · simp only [process_event_loop]
      rw [dif_pos hb]
    · obtain ⟨s2, hs2⟩ := hstep s
      simp only [process_event_loop]
      rw [dif_neg hb, hs2]
      exact ih s2 (count + 1) (by omega)

theorem process_event_loop_cancel_after_ok
    (step : InternalState → InternalStateTransition InternalState)
    (current_state : FxaState) :
    ∀ (n : Nat) (s : InternalState) (count : Nat),
      count + n + 1 ≤ MAX_INTERNAL_TRANSITIONS →
      cancel_after step s n →
      process_event_loop step current_state (.Process s) count = .ok current_state := by
  intro n
  induction n with
  | zero =>
    intro s count hle hc
    simp only [cancel_after] at hc
    simp only [process_event_loop]
    rw [dif_neg (by omega), hc]
    simp only [process_event_loop]
    rw [if_neg (by omega)]
  | succ n ih =>
    intro s count hle hc
    obtain ⟨s2, hs2, hc2⟩ := hc
    simp only [process_event_loop]
    rw [dif_neg (by omega), hs2]
    exact ih s2 (count + 1) (by omega) hc2

/-- C1: the claim says that for `BeginPairingFlow` while `Disconnected`, a
successful begin-pairing operation makes the driver produce the success
`InternalEvent` matching the `BeginPairingFlow` sub-step and makes
`process_event` return `Ok(Authenticating{oauth_url})`.  Evaluating the code:
the driver builds `BeginOAuthFlowSuccess` for the pairing sub-step (mod.rs line
146), `DisconnectedState::transition` has no arm for
`(BeginPairingFlow, BeginOAuthFlowSuccess)` so it cancels, and `process_event`
returns the unchanged state `Ok(Disconnected)`. -/
theorem C1_pairing_flow_success_returns_disconnected :
    process_internal_state pairingAccount
        (.Disconnected (.BeginPairingFlow "https://example.com/pairing-url" ["profile"] "test"))
      = .ok (.BeginOAuthFlowSuccess "https://example.com/oauth-start") ∧
    InternalState.transition
        (.Disconnected (.BeginPairingFlow "https://example.com/pairing-url" ["profile"] "test"))
        (.BeginOAuthFlowSuccess "https://example.com/oauth-start")
      = .Cancel ∧
    process_event pairingAccount .Disconnected
        (.BeginPairingFlow "https://example.com/pairing-url" ["profile"] "test")
      = .ok .Disconnected := by
  refine ⟨rfl, rfl, ?_⟩
  unfold process_event
  have h1 : InternalState.start_transition FxaState.Disconnected
      (FxaEvent.BeginPairingFlow "https://example.com/pairing-url" ["profile"] "test")
      = .Process (.Disconnected
          (.BeginPairingFlow "https://example.com/pairing-url" ["profile"] "test")) := rfl
  rw [h1]
  simp only [process_event_loop]
  rw [dif_neg (by decide)]
  have h2 : process_step pairingAccount
      (.Disconnected (.BeginPairingFlow "https://example.com/pairing-url" ["profile"] "test"))
      = .Cancel := rfl
  rw [h2]
  simp [process_event_loop]

/-- C2 counterexample: the claimed shared outcome mapping fails on the
`Uninitialized` side — `Uninitialized/CheckAuthorizationStatus` maps a
`CallError` to `Complete(AuthIssues)`, not `Complete(Disconnected)`
(logic.rs lines 121-122). -/
theorem C2_counterexample_uninitialized_check_auth :
    InternalState.transition (.Uninitialized .CheckAuthorizationStatus) (.CallError .Auth)
      = .Complete .AuthIssues ∧
    InternalState.transition (.Uninitialized .CheckAuthorizationStatus) (.CallError .Auth)
      ≠ .Complete .Disconnected := by
  decide

/-- C2 (amended): `Connected/CheckAuthorizationStatus` maps success(active=true)
to `Complete(Connected)` and success(active=false) or any `CallError` to
`Complete(Disconnected)`; `Uninitialized/CheckAuthorizationStatus` shares only
the success(active=true) ⇒ `Complete(Connected)` case and maps
success(active=false) or any `CallError` to `Complete(AuthIssues)`. -/
theorem C2_check_authorization_mapping (kind : CallErrorKind) :
    InternalState.transition (.Connected .CheckAuthorizationStatus)
        (.CheckAuthorizationStatusSuccess true) = .Complete .Connected ∧
    InternalState.transition (.Connected .CheckAuthorizationStatus)
        (.CheckAuthorizationStatusSuccess false) = .Complete .Disconnected ∧
    InternalState.transition (.Connected .CheckAuthorizationStatus)
        (.CallError kind) = .Complete .Disconnected ∧
    InternalState.transition (.Uninitialized .CheckAuthorizationStatus)
        (.CheckAuthorizationStatusSuccess true) = .Complete .Connected ∧
    InternalState.transition (.Uninitialized .CheckAuthorizationStatus)
        (.CheckAuthorizationStatusSuccess false) = .Complete .AuthIssues ∧
    InternalState.transition (.Uninitialized .CheckAuthorizationStatus)
        (.CallError kind) = .Complete .AuthIssues := by
  cases kind <;> decide

/-- C3: for `Uninitialized/CheckAuthorizationStatus`, success with active=true
yields `Complete(Connected)`, and success with active=false or a `CallError` of
either kind yields `Complete(AuthIssues)` (logic.rs lines 118-122). -/
theorem C3_uninitialized_check_auth (kind : CallErrorKind) :
    InternalState.transition (.Uninitialized .CheckAuthorizationStatus)
        (.CheckAuthorizationStatusSuccess true) = .Complete .Connected ∧
    InternalState.transition (.Uninitialized .CheckAuthorizationStatus)
        (.CheckAuthorizationStatusSuccess false) = .Complete .AuthIssues ∧
    InternalState.transition (.Uninitialized .CheckAuthorizationStatus)
        (.CallError kind) = .Complete .AuthIssues := by
  cases kind <;> decide

/-- C4: for `Uninitialized/GetAuthState`, a `GetAuthStateSuccess` with auth_state
`Disconnected` yields `Complete(Disconnected)`; with `AuthIssues` it yields
`Complete(Connected)` (the legacy-client quirk, logic.rs lines 100-105); with
`Connected` it yields `Process(EnsureDeviceCapabilities)`. -/
theorem C4_uninitialized_get_auth_state :
    InternalState.transition (.Uninitialized .GetAuthState)
        (.GetAuthStateSuccess .Disconnected) = .Complete .Disconnected ∧
    InternalState.transition (.Uninitialized .GetAuthState)
        (.GetAuthStateSuccess .AuthIssues) = .Complete .Connected ∧
    InternalState.transition (.Uninitialized .GetAuthState)
        (.GetAuthStateSuccess .Connected)
      = .Process (.Uninitialized .EnsureDeviceCapabilities) := by
  decide

/-- C5: whenever `start_transition` returns `Cancel` (the event is not valid for
the current public state), `process_event` returns the `InvalidStateTransition`
error and the stored public state is unchanged (mod.rs lines 73-84). -/
theorem C5_invalid_event
    (account : Account) (current_state : FxaState) (event : FxaEvent)
    (h : InternalState.start_transition current_state event = .Cancel) :
    process_event account current_state event = .error .InvalidStateTransition ∧
    stored_state_after current_state (process_event account current_state event)
      = current_state := by
  unfold process_event
  rw [h]
  constructor
  · simp [process_event_loop]
  · simp [process_event_loop, stored_state_after]

theorem C5_witness :
    process_event anyAccount .Uninitialized .Disconnect
      = .error .InvalidStateTransition ∧
    stored_state_after .Uninitialized
        (process_event anyAccount .Uninitialized .Disconnect)
      = .Uninitialized :=
  C5_invalid_event anyAccount .Uninitialized .Disconnect rfl

/-- C6: the loop of `process_event` performs at most 20 (`MAX_INTERNAL_TRANSITIONS`)
account-operation invocations for any step function, and for any transition
table whose steps always continue with `Process` (a cycle longer than the
bound) it returns the `StateMachineLogicError` error and leaves the stored
public state unchanged (mod.rs lines 86-92). -/
theorem C6_loop_bound
    (step : InternalState → InternalStateTransition InternalState)
    (current_state : FxaState) (t : InternalStateTransition InternalState)
    (s0 : InternalState)
    (hstep : ∀ s, ∃ s2, step s = .Process s2) :
    (process_event_loop_count step current_state t 0).1
        = process_event_loop step current_state t 0 ∧
    (process_event_loop_count step current_state t 0).2 ≤ MAX_INTERNAL_TRANSITIONS ∧
    process_event_loop step current_state (.Process s0) 0
        = .error .StateMachineLogicError ∧
    stored_state_after current_state
        (process_event_loop step current_state (.Process s0) 0) = current_state := by
  have h1 := process_event_loop_count_fst step current_state
    (MAX_INTERNAL_TRANSITIONS + 1) t 0 (by omega)
  have h2 := process_event_loop_count_le step current_state
    (MAX_INTERNAL_TRANSITIONS + 1) t 0 (by omega)
  have h3 := process_event_loop_always_process step current_state hstep
    (MAX_INTERNAL_TRANSITIONS + 1) s0 0 (by omega)
  exact ⟨h1, by omega, h3, by rw [h3]; rfl⟩

theorem C6_witness :
    (process_event_loop_count (fun _ => .Process (.Uninitialized .GetAuthState))
        .Disconnected .Cancel 0).1
      = process_event_loop (fun _ => .Process (.Uninitialized .GetAuthState))
          .Disconnected .Cancel 0 ∧
    (process_event_loop_count (fun _ => .Process (.Uninitialized .GetAuthState))
        .Disconnected .Cancel 0).2 ≤ MAX_INTERNAL_TRANSITIONS ∧
    process_event_loop (fun _ => .Process (.Uninitialized .GetAuthState)) .Disconnected
        (.Process (.Uninitialized .GetAuthState)) 0
      = .error .StateMachineLogicError ∧
    stored_state_after .Disconnected
        (process_event_loop (fun _ => .Process (.Uninitialized .GetAuthState)) .Disconnected
          (.Process (.Uninitialized .GetAuthState)) 0)
      = .Disconnected :=
  C6_loop_bound (fun _ => .Process (.Uninitialized .GetAuthState)) .Disconnected .Cancel
    (.Uninitialized .GetAuthState) (fun _ => ⟨.Uninitialized .GetAuthState, rfl⟩)

/-- C7: when the run of `process_event` starts with a `Process` step and a
`Cancel` arises only after `n` further `Process` steps (so not on the very first
loop iteration), `process_event` returns `Ok` with the unchanged stored public
state, and the stored state is not mutated (mod.rs lines 73-84). -/
theorem C7_cancel_after_step_is_ok
    (account : Account) (current_state : FxaState) (event : FxaEvent)
    (s : InternalState) (n : Nat)
    (hstart : InternalState.start_transition current_state event = .Process s)
    (hcancel : cancel_after (process_step account) s n)
    (hn : n + 1 ≤ MAX_INTERNAL_TRANSITIONS) :
    process_event account current_state event = .ok current_state ∧
    stored_state_after current_state (process_event account current_state event)
      = current_state := by
  have h := process_event_loop_cancel_after_ok (process_step account) current_state n s 0
    (by omega) hcancel
  unfold process_event
  rw [hstart]
  exact ⟨h, by rw [h]; rfl⟩

theorem C7_witness :
    process_event failingOAuthAccount .Disconnected (.BeginOAuthFlow ["profile"] "test")
      = .ok .Disconnected ∧
    stored_state_after .Disconnected
        (process_event failingOAuthAccount .Disconnected (.BeginOAuthFlow ["profile"] "test"))
      = .Disconnected :=
  C7_cancel_after_step_is_ok failingOAuthAccount .Disconnected
    (.BeginOAuthFlow ["profile"] "test")
    (.Disconnected (.BeginOAuthFlow ["profile"] "test")) 0 rfl rfl (by decide)

/-- C8: for `Connected/Disconnect`, `DisconnectSuccess` and a `CallError` of
either kind all yield `Complete(Disconnected)` (logic.rs lines 206-214), and
`process_event(Disconnect)` while `Connected` returns `Disconnected` for any
account. -/
theorem C8_disconnect_always_completes (kind : CallErrorKind) (account : Account) :
    InternalState.transition (.Connected .Disconnect) .DisconnectSuccess
      = .Complete .Disconnected ∧
    InternalState.transition (.Connected .Disconnect) (.CallError kind)
      = .Complete .Disconnected ∧
    process_event account .Connected .Disconnect = .ok .Disconnected := by
  refine ⟨by decide, by cases kind <;> decide, ?_⟩
  unfold process_event
  have h1 : InternalState.start_transition FxaState.Connected FxaEvent.Disconnect
      = .Process (.Connected .Disconnect) := rfl
  rw [h1]
  simp only [process_event_loop]
  rw [dif_neg (by decide)]
  have h2 : process_step account (.Connected .Disconnect) = .Complete .Disconnected := rfl
  rw [h2]
  simp [process_event_loop]

/-- C9: for any `Authenticating{oauth_url}` state, `CancelOAuthFlow` makes
`start_transition` return `Complete(Disconnected)` directly (logic.rs line 176),
so `process_event` returns `Disconnected` and the loop performs zero
account-operation invocations. -/
theorem C9_cancel_oauth_flow (oauth_url : String) (account : Account) :
    InternalState.start_transition (.Authenticating oauth_url) .CancelOAuthFlow
      = .Complete .Disconnected ∧
    process_event account (.Authenticating oauth_url) .CancelOAuthFlow
      = .ok .Disconnected ∧
    (process_event_loop_count (process_step account) (.Authenticating oauth_url)
        (InternalState.start_transition (.Authenticating oauth_url) .CancelOAuthFlow) 0).2
      = 0 := by
  have h1 : InternalState.start_transition (FxaState.Authenticating oauth_url)
      FxaEvent.CancelOAuthFlow = .Complete .Disconnected := rfl
  refine ⟨h1, ?_, ?_⟩
  · unfold process_event
    rw [h1]
    simp [process_event_loop]
  · rw [h1]
    simp [process_event_loop_count]

/-- C10: no `transition` or `start_transition` result is `Complete(Uninitialized)`,
and hence once the stored public state is not `Uninitialized`, no `process_event`
call, with any event and any account outcomes, leaves the stored state
`Uninitialized` again. -/
theorem C10_no_return_to_uninitialized :
    (∀ (public_state : FxaState) (event : FxaEvent),
      InternalState.start_transition public_state event ≠ .Complete .Uninitialized) ∧
    (∀ (s : InternalState) (e : InternalEvent),
      InternalState.transition s e ≠ .Complete .Uninitialized) ∧
    (∀ (account : Account) (current_state : FxaState) (event : FxaEvent),
      current_state ≠ .Uninitialized →
      stored_state_after current_state (process_event account current_state event)
        ≠ .Uninitialized) := by
  refine ⟨start_transition_ne_complete_uninitialized,
    transition_ne_complete_uninitialized, ?_⟩
  intro account current_state event hcur
  have hstep : ∀ s2, process_step account s2 ≠ .Complete .Uninitialized := by
    intro s2
    exact transition_ne_complete_uninitialized s2 _
  cases hres : process_event account current_state event with
  | ok s =>
    have hs : s ≠ .Uninitialized := by
      refine process_event_loop_ne_uninitialized (process_step account) current_state hstep
        hcur (MAX_INTERNAL_TRANSITIONS + 1)
        (InternalState.start_transition current_state event) 0 (by omega)
        (start_transition_ne_complete_uninitialized current_state event) s ?_
      exact hres
    simpa [stored_state_after] using hs
  | error e =>
    simpa [stored_state_after] using hcur
